import Mathlib

/-
Verification development for the `observable` Go package (renorm.dev/observable).

The package provides lazily evaluated boolean assertions (`Predicate`), a
polymorphic negation operator `Not`, combinators (`Any`, `All`), memoizing
predicate builders (`Returns`, `ElementsMatch`), a nil check (`Nil`) and the
normalisation function `assert`.

Effects are embedded in state-passing style: a Go thunk `func() bool` whose
body may touch captured mutable state becomes a Lean function `σ → Bool × σ`.
Construction of a closure performs no state transition (as in Go); only
invoking a thunk threads the state.  Where a claim is about "how many times
was this computation run", the state carries an explicit run counter for the
computation in question; the counter models the observable side effect of the
captured Go function, nothing else.

The repository contains two snapshots of the negation operator:
  * `src/observable.go` (old): on an unsupported argument `Not` silently
    returns the zero value of the type parameter `F`
    (embedded below as `ObservableGo.Not`);
  * `src/unnamed/part_001` (new, matching `base_test.go` and the package
    documentation "If you call Not with another type, it will panic!"):
    `Not` panics with a diagnostic message
    (embedded below as `Part001.Not`, panics modeled as `Except.error`).
Both are embedded; theorems name the variant they speak about.
-/

namespace Observable

/-- The `Predicate` struct of src/observable.go lines 21-24 (identical in
src/unnamed/part_001 lines 19-22): an `ok` thunk producing the boolean and a
`msg` thunk producing the failure message, embedded state-passing. -/
structure Predicate (σ : Type) where
  ok : σ → Bool × σ
  msg : σ → String × σ

/-- `func (p Predicate) Ok() bool { return p.ok() }` (observable.go line 27). -/
def Predicate.Ok {σ : Type} (p : Predicate σ) (s : σ) : Bool × σ := p.ok s

/-- `func (p Predicate) Message() string { return p.msg() }` (observable.go line 30). -/
def Predicate.Message {σ : Type} (p : Predicate σ) (s : σ) : String × σ := p.msg s

/-- The negated predicate built by the `case Predicate` branch of `Not`
(observable.go lines 65-68, part_001 lines 71-74): complemented `ok`, message
prefixed with `"not: "`. -/
def notPredicate {σ : Type} (v : Predicate σ) : Predicate σ where
  ok := fun s => let r := v.ok s; (!r.1, r.2)
  msg := fun s => let r := v.msg s; ("not: " ++ r.1, r.2)

/-- The negated thunk built by the `case func() bool` branch of `Not`
(observable.go line 74, part_001 line 78): `func() bool { return !v() }`. -/
def negBoolThunk {σ : Type} (v : σ → Bool × σ) : σ → Bool × σ :=
  fun s => let r := v s; (!r.1, r.2)

/-- Instrumented model of a Go `func() bool` value: the state is the number of
invocations performed so far, and `g k` is the value returned by the k-th
invocation (counting from 0). -/
def countThunk (g : Nat → Bool) : Nat → Bool × Nat := fun c => (g c, c + 1)

/-- Invoke a thunk `k` times in sequence, collecting the returned booleans. -/
def iterateThunk {σ : Type} (t : σ → Bool × σ) : Nat → σ → List Bool × σ
  | 0, s => ([], s)
  | Nat.succ k, s =>
    let r := t s
    let rest := iterateThunk t k r.2
    (r.1 :: rest.1, rest.2)

/-- Go's `reflect.Kind` enumeration with its numeric codes (reflect/type.go);
the order matters because `Nil` and `Not` compare kinds numerically.
`uptr` stands for reflect.UnsafePointer. -/
inductive Kind where
  | invalid | bool | int | int8 | int16 | int32 | int64
  | uint | uint8 | uint16 | uint32 | uint64 | uintptr
  | float32 | float64 | complex64 | complex128
  | array | chan | func | interface | map | pointer | slice
  | string | struct | uptr
  deriving DecidableEq

/-- The numeric value of a `reflect.Kind` (reflect/type.go: Invalid = 0 ... ). -/
def Kind.code : Kind → Nat
  | .invalid => 0 | .bool => 1 | .int => 2 | .int8 => 3 | .int16 => 4
  | .int32 => 5 | .int64 => 6 | .uint => 7 | .uint8 => 8 | .uint16 => 9
  | .uint32 => 10 | .uint64 => 11 | .uintptr => 12 | .float32 => 13
  | .float64 => 14 | .complex64 => 15 | .complex128 => 16 | .array => 17
  | .chan => 18 | .func => 19 | .interface => 20 | .map => 21
  | .pointer => 22 | .slice => 23 | .string => 24 | .struct => 25
  | .uptr => 26

/-- `reflect.Kind.String()` (reflect/type.go kindNames). -/
def Kind.name : Kind → String
  | .invalid => "invalid" | .bool => "bool" | .int => "int" | .int8 => "int8"
  | .int16 => "int16" | .int32 => "int32" | .int64 => "int64" | .uint => "uint"
  | .uint8 => "uint8" | .uint16 => "uint16" | .uint32 => "uint32"
  | .uint64 => "uint64" | .uintptr => "uintptr" | .float32 => "float32"
  | .float64 => "float64" | .complex64 => "complex64"
  | .complex128 => "complex128" | .array => "array" | .chan => "chan"
  | .func => "func" | .interface => "interface" | .map => "map"
  | .pointer => "ptr" | .slice => "slice" | .string => "string"
  | .struct => "struct" | .uptr => "unsafe.Pointer"

/-- A Go `any` value as seen by `Nil`: either the nil interface value, or a
non-nil interface holding a dynamic value of some reflect kind.  For a kind
that supports `IsNil` the flag `isNilV` records `reflect.ValueOf(x).IsNil()`;
`rep` records the `%#v` rendering used in the failure message. -/
inductive AnyVal where
  | nilInterface
  | val (kind : Kind) (isNilV : Bool) (rep : String)

/-- `%#v` rendering of the value (`fmt.Sprintf("expected %#v to be nil", v)`). -/
def AnyVal.render : AnyVal → String
  | .nilInterface => "<nil>"
  | .val _ _ rep => rep

/-- The `isNil` closure inside `Nil` (src/base.go lines 13-21, identical in
observable.go lines 104-110 and part_001 lines 122-130):
`x == nil`, else `rv.Kind() >= reflect.Chan && rv.Kind() <= reflect.Slice && rv.IsNil()`. -/
def isNil (x : AnyVal) : Bool :=
  match x with
  | .nilInterface => true
  | .val k isNilV _ =>
    decide (Kind.chan.code ≤ k.code) && decide (k.code ≤ Kind.slice.code) && isNilV

/-- `Nil` (src/base.go lines 12-27): a Predicate that is ok when v is nil.
Its thunks touch no captured mutable state, so they preserve any state σ. -/
def Nil {σ : Type} (v : AnyVal) : Predicate σ where
  ok := fun s => (isNil v, s)
  msg := fun s => ("expected " ++ v.render ++ " to be nil", s)

/-- The declared return type `rt.Out(0)` of a function handed to `Not`, as the
reflect dispatch of part_001 lines 91-117 distinguishes it: `bool`,
`func() bool`, `Predicate`, or anything else (`other` carries the `%v`
rendering of the reflect.Type, used in the panic message). -/
inductive RetTy where
  | b
  | fb
  | p
  | other (tname : String)
  deriving DecidableEq

/-- What a Go value of the given declared return type is, in the embedding. -/
def RetTy.denote (σ : Type) : RetTy → Type
  | .b => Bool
  | .fb => σ → Bool × σ
  | .p => Predicate σ
  | .other _ => Unit

/-- A non-nullary Go function value as `Not`'s reflect fallback sees it:
`numOut` is `rt.NumOut()`, `outTy` is `rt.Out(0)`, and `call` invokes the
function on an argument tuple of type `α` (its parameter signature), threading
the effect state and producing the first return value.  `call` is only ever
invoked when `numOut = 1`. -/
structure GoFunc (σ α : Type) where
  numOut : Nat
  outTy : RetTy
  call : α → σ → RetTy.denote σ outTy × σ

/-- The dynamic shapes `Not[F any](x F)` distinguishes: the three type-switch
cases (`Predicate`, `bool`, `func() bool`), a function value of any other
function type (reaching the reflect fallback), and a non-callable value of
some other kind (e.g. the int 42, or the nil interface with kind `invalid`). -/
inductive DynVal (σ α : Type) where
  | pred (p : Predicate σ)
  | bool (b : Bool)
  | funcBool (t : σ → Bool × σ)
  | fn (f : GoFunc σ α)
  | nonFunc (k : Kind)

/-- Panic message of part_001 line 83 (`%v` of `rv.Kind()`). -/
def notPanicKind (k : Kind) : String :=
  "argument to Not must be an assertion or function that returns an assertion, got " ++ k.name

/-- Panic message of part_001 line 88 (`%d` of `rt.NumOut()`). -/
def notPanicOuts (n : Nat) : String :=
  "argument to Not must be an assertion or function that returns an assertion, got a function which returns "
    ++ toString n ++ " items"

/-- Panic message of part_001 line 116 (`%v` of `rt.Out(0)`). -/
def notPanicOutTy (tname : String) : String :=
  "argument to Not must be an assertion or function that returns an assertion, got a function which returns "
    ++ tname

namespace Part001

/-- `Not` of src/unnamed/part_001 lines 67-118: type-switch on Predicate /
bool / func() bool, then reflect fallback.  A Go panic is modeled as
`Except.error` carrying the panic message; nothing is evaluated before the
error is produced (the embedding of `Not` is a pure function that never
applies `call`, a `funcBool` thunk, or a predicate thunk on the error paths).
The `reflect.MakeFunc` wrappers keep the function type `rt`, hence the same
argument tuple type `α` and the same `numOut` and `outTy`. -/
def Not {σ α : Type} (x : DynVal σ α) : Except String (DynVal σ α) :=
  match x with
  | .pred v => .ok (.pred (notPredicate v))
  | .bool v => .ok (.bool (!v))
  | .funcBool v => .ok (.funcBool (negBoolThunk v))
  | .nonFunc k => .error (notPanicKind k)
  | .fn f =>
    if f.numOut ≠ 1 then .error (notPanicOuts f.numOut)
    else
      match f with
      | ⟨n, RetTy.b, call⟩ =>
        .ok (.fn ⟨n, RetTy.b, fun a s => let r := call a s; (!r.1, r.2)⟩)
      | ⟨n, RetTy.fb, call⟩ =>
        .ok (.fn ⟨n, RetTy.fb, fun a s => let r := call a s; (negBoolThunk r.1, r.2)⟩)
      | ⟨n, RetTy.p, call⟩ =>
        .ok (.fn ⟨n, RetTy.p, fun a s => let r := call a s; (notPredicate r.1, r.2)⟩)
      | ⟨_, RetTy.other tname, _⟩ => .error (notPanicOutTy tname)

end Part001

namespace ObservableGo

/-- Result of the old `Not` (src/observable.go): either a value, or the zero
value of the type parameter `F` (`var zero F; return zero`, lines 79-80 and
85-86) returned silently on an unsupported argument. -/
inductive NotResult (σ α : Type) where
  | val (v : DynVal σ α)
  | zero

/-- `Not` of src/observable.go lines 61-100: same three type-switch cases,
but the reflect fallback accepts only a function whose single result type is
`Predicate`; every other shape silently yields the zero value of `F`. -/
def Not {σ α : Type} (x : DynVal σ α) : NotResult σ α :=
  match x with
  | .pred v => .val (.pred (notPredicate v))
  | .bool v => .val (.bool (!v))
  | .funcBool v => .val (.funcBool (negBoolThunk v))
  | .nonFunc _ => .zero
  | .fn f =>
    match f with
    | ⟨n, RetTy.p, call⟩ =>
      if n ≠ 1 then .zero
      else .val (.fn ⟨n, RetTy.p, fun a s => let r := call a s; (notPredicate r.1, r.2)⟩)
    | _ => .zero

end ObservableGo

/-- A Go `any` value, closed under slices of `any`, as needed to trace what a
variadic `...any` parameter receives. -/
inductive GoAny where
  | int (n : Int)
  | str (s : String)
  | slice (xs : List GoAny)

/-- A variadic Go function `func(a α, rest ...any) Predicate` as seen from its
body: `call` receives the fixed arguments and the slice `rest` holds the
variadic arguments, one element per argument at the call site. -/
structure VariadicFunc (σ α : Type) where
  call : α → List GoAny → σ → Predicate σ × σ

/-- Models `reflect.MakeFunc(rt, fn)` for a variadic `rt` with trailing
`...any`.  Per the documented MakeFunc contract, when the created function is
invoked, `fn` receives the formal argument list, and because `rt` is variadic
the final `reflect.Value` handed to `fn` is itself a slice holding the
variadic arguments, as in the body of a variadic function.  The embedding
therefore passes `fn` the single packed value `GoAny.slice rest`. -/
def makeFuncVariadic {σ α : Type} (fn : α → GoAny → σ → Predicate σ × σ) :
    VariadicFunc σ α where
  call := fun a rest s => fn a (GoAny.slice rest) s

/-- Models `rv.Call(ins)` on the variadic function `f`.  Per the documented
Value.Call contract, Call itself creates the variadic slice parameter from the
trailing input Values: each trailing Value becomes one element of a fresh
slice (with element type `any`, every Value - including a slice - is
assignable to the element type, so no panic occurs).  The body of `f` hence
sees exactly the list of trailing Values as its `rest`. -/
def valueCall {σ α : Type} (f : VariadicFunc σ α) (a : α) (extras : List GoAny)
    (s : σ) : Predicate σ × σ :=
  f.call a extras s

/-- The `reflect.MakeFunc` wrapper that `Not` builds for a variadic
Predicate-returning function (part_001 lines 107-114, identically
observable.go lines 89-97): the wrapper body runs
`orig := rv.Call(args)[0].Interface().(Predicate)` on the trampoline argument
list `args` - whose trailing element is the already packed variadic slice
Value - and returns the negated predicate. -/
def NotVariadic {σ α : Type} (f : VariadicFunc σ α) : VariadicFunc σ α :=
  makeFuncVariadic (fun a packedRest s =>
    let r := valueCall f a [packedRest] s
    (notPredicate r.1, r.2))

/-- A spy for observing what a negated variadic function forwards: it returns
a trivial predicate and records the `rest` slice its body received into the
state. -/
def spyVariadic : VariadicFunc (List GoAny) String where
  call := fun _ rest _ => (⟨fun t => (true, t), fun t => ("", t)⟩, rest)

/-- The `Assertion` constraint (observable.go lines 37-39): a bool, a
`func() bool`, or a `Predicate`. -/
inductive Assertion (σ : Type) where
  | bool (b : Bool)
  | funcBool (t : σ → Bool × σ)
  | pred (p : Predicate σ)

/-- `assert` (observable.go lines 211-224, identical in part_001 lines
185-201): normalises an Assertion into `(ok, autoMsg)`.  A bool is returned
as is with an empty message; a `func() bool` is invoked (once); a Predicate
contributes `p.Ok(), p.Message()`, evaluated left to right. -/
def assert {σ : Type} (a : Assertion σ) (s : σ) : (Bool × String) × σ :=
  match a with
  | .bool b => ((b, ""), s)
  | .funcBool t => let r := t s; ((r.1, ""), r.2)
  | .pred p =>
    let r₁ := p.Ok s
    let r₂ := p.Message r₁.2
    ((r₁.1, r₂.1), r₂.2)

/-- State of a `Returns` predicate (observable.go lines 177-193): the
`sync.Once` flag, the captured `got`, and an instrumentation counter for how
often the user function `f` has been run.  `f` itself is modeled as a counted
computation producing `fval`. -/
structure RState (T : Type) where
  done : Bool
  got : T
  calls : Nat
  deriving DecidableEq

/-- The `eval` closure of `Returns`: `once.Do(func() { got = f() })`. -/
def returnsEval {T : Type} (fval : T) (s : RState T) : RState T :=
  if s.done then s else ⟨true, fval, s.calls + 1⟩

/-- `Returns` (observable.go lines 177-193): ok when `f`'s return value
equals `want`; both thunks first run `eval` and then read the cached `got`. -/
def Returns {T : Type} [DecidableEq T] [ToString T] (fval want : T) :
    Predicate (RState T) where
  ok := fun s =>
    let s₁ := returnsEval fval s
    (decide (s₁.got = want), s₁)
  msg := fun s =>
    let s₁ := returnsEval fval s
    ("expected " ++ toString want ++ ", got " ++ toString s₁.got, s₁)

/-- State of an `ElementsMatch` predicate (src/slices.go lines 75-102): the
`sync.Once` flag, the cached comparison outcome (`match` in the source), and
an instrumentation counter for how often the deep multiset comparison ran. -/
structure MState where
  done : Bool
  matched : Bool
  runs : Nat
  deriving DecidableEq

/-- The guarded computation of `ElementsMatch`:
`reflect.DeepEqual(count(got), count(want))` where `count` builds the
element-multiplicity map of a slice.  Two such maps are DeepEqual exactly when
every element of either slice has the same multiplicity in both (a key is
present in a count map iff its multiplicity is positive). -/
def elemCountEq {T : Type} [DecidableEq T] (got want : List T) : Bool :=
  decide (∀ v ∈ got ++ want, got.count v = want.count v)

/-- The `check` closure of `ElementsMatch`: `once.Do(func() { match = ... })`. -/
def elementsCheck {T : Type} [DecidableEq T] (got want : List T) (s : MState) :
    MState :=
  if s.done then s else ⟨true, elemCountEq got want, s.runs + 1⟩

/-- `ElementsMatch` (src/slices.go lines 75-102): ok when the two slices hold
the same multiset of elements; both thunks first run `check`. -/
def ElementsMatch {T : Type} [DecidableEq T] [ToString T] (got want : List T) :
    Predicate MState where
  ok := fun s =>
    let s₁ := elementsCheck got want s
    (s₁.matched, s₁)
  msg := fun s =>
    let s₁ := elementsCheck got want s
    ("expected " ++ toString got ++ " and " ++ toString want
      ++ " to contain the same elements", s₁)

/-- Which accessor of a Predicate is invoked at each step. -/
inductive Accessor where
  | ok
  | msg

/-- Run a sequence of `Ok()` / `Message()` invocations against a predicate,
threading its state. -/
def runAccessors {σ : Type} (p : Predicate σ) : List Accessor → σ → σ
  | [], s => s
  | Accessor.ok :: rest, s => runAccessors p rest (p.ok s).2
  | Accessor.msg :: rest, s => runAccessors p rest (p.msg s).2

/-- `True` of src/base.go lines 61-66 (renamed: `True` is taken by the Prop). -/
def TruePred {σ : Type} : Predicate σ where
  ok := fun s => (true, s)
  msg := fun s => ("true", s)

/-- `False` of src/base.go lines 69-74 (renamed: `False` is taken by the Prop). -/
def FalsePred {σ : Type} : Predicate σ where
  ok := fun s => (false, s)
  msg := fun s => ("false", s)

/-- State of an `Any` / `All` predicate (src/base.go lines 77-120): the state
threaded through the child predicates, the `sync.Once` flag, and the `msgs`
slice collected by the once body. -/
structure AggState (σ : Type) where
  inner : σ
  done : Bool
  msgs : List String

/-- The loop inside the once body of `Any` and `All` (base.go lines 85-89 and
108-112): iterate over the children in order; for each child evaluate
`p.Ok()`, and when it is false append `p.Message()` to `msgs`. -/
def collectFailures {σ : Type} : List (Predicate σ) → σ → List String × σ
  | [], s => ([], s)
  | p :: rest, s =>
    let r := p.ok s
    if r.1 then collectFailures rest r.2
    else
      let m := p.msg r.2
      let tailr := collectFailures rest m.2
      (m.1 :: tailr.1, tailr.2)

/-- The once-guarded `eval` closure shared by `Any` and `All`: on first touch
run the loop over all children and store the collected failure messages. -/
def aggEval {σ : Type} (ps : List (Predicate σ)) (st : AggState σ) : AggState σ :=
  if st.done then st
  else
    let r := collectFailures ps st.inner
    ⟨r.2, true, r.1⟩

/-- Go's `%v` rendering of a `[]string`. -/
def govStrings (xs : List String) : String :=
  "[" ++ String.intercalate " " xs ++ "]"

/-- `Any` (src/base.go lines 77-97): ok when `len(msgs) < len(ps)`, i.e. some
child succeeded; the message aggregates the failing children's messages. -/
def Any {σ : Type} (ps : List (Predicate σ)) : Predicate (AggState σ) where
  ok := fun st =>
    let st₁ := aggEval ps st
    (decide (st₁.msgs.length < ps.length), st₁)
  msg := fun st =>
    let st₁ := aggEval ps st
    ("expected any to be true, all failed: " ++ govStrings st₁.msgs, st₁)

/-- `All` (src/base.go lines 100-120): ok when `len(msgs) == 0`, i.e. every
child succeeded; the message aggregates the failing children's messages. -/
def All {σ : Type} (ps : List (Predicate σ)) : Predicate (AggState σ) where
  ok := fun st =>
    let st₁ := aggEval ps st
    (decide (st₁.msgs.length = 0), st₁)
  msg := fun st =>
    let st₁ := aggEval ps st
    ("expected all to be true, failures: " ++ govStrings st₁.msgs, st₁)

/-- A child predicate whose thunks leave the threaded state untouched (the
usual case: every builder in the package except the once-instrumented ones). -/
def stable {σ : Type} (p : Predicate σ) : Prop :=
  ∀ s, (p.ok s).2 = s ∧ (p.msg s).2 = s

/-- An instrumented child over state `Nat`: evaluating it increments the
counter; its constant result is `b`.  Used to observe that the combinator loop
evaluates every child (no short-circuit). -/
def countingPred (b : Bool) : Predicate Nat where
  ok := fun s => (b, s + 1)
  msg := fun s => ("", s)

/-- C4: for every Predicate p, Not(p) is a Predicate whose Ok() is the boolean
complement of p.Ok() and whose Message() is p.Message() prefixed with the
negation marker "not: " (hence contains p.Message()'s text); this is the
Predicate branch of both variants of Not. -/
theorem not_predicate_complement (σ : Type) (p : Predicate σ) (s : σ) :
    Part001.Not (α := Unit) (DynVal.pred p) = Except.ok (DynVal.pred (notPredicate p))
  ∧ ObservableGo.Not (α := Unit) (DynVal.pred p)
      = ObservableGo.NotResult.val (DynVal.pred (notPredicate p))
  ∧ (notPredicate p).Ok s = (!(p.Ok s).1, (p.Ok s).2)
  ∧ (notPredicate p).Message s = ("not: " ++ (p.Message s).1, (p.Message s).2)
  ∧ ∃ pre, ((notPredicate p).Message s).1 = pre ++ (p.Message s).1 := by
  exact ⟨rfl, rfl, rfl, rfl, ⟨"not: ", rfl⟩⟩

/-- C7: double negation is semantically idempotent: negating a Predicate twice
through Not yields a Predicate whose Ok() agrees with the original at every
state. -/
theorem not_not_idempotent (σ : Type) (p : Predicate σ) :
    (Part001.Not (α := Unit) (DynVal.pred p)).bind Part001.Not
        = Except.ok (DynVal.pred (notPredicate (notPredicate p)))
  ∧ ∀ s, (notPredicate (notPredicate p)).Ok s = p.Ok s := by
  refine ⟨rfl, fun s => ?_⟩
  simp [Predicate.Ok, notPredicate]

/-- C6: for every nullary boolean function f, Not(f) is built without invoking
f (the dispatch is a pure equation on the thunk, no state transition), and
each invocation of Not(f)() invokes f exactly once at that moment (the counter
moves from c to c + 1) and returns the complement of f's result; k repeated
invocations re-invoke f k times, complementing each result in order. -/
theorem not_funcBool_lazy (σ : Type) :
    (∀ t : σ → Bool × σ,
        Part001.Not (α := Unit) (DynVal.funcBool t)
            = Except.ok (DynVal.funcBool (negBoolThunk t))
      ∧ ObservableGo.Not (α := Unit) (DynVal.funcBool t)
            = ObservableGo.NotResult.val (DynVal.funcBool (negBoolThunk t)))
  ∧ (∀ (g : Nat → Bool) (c : Nat), negBoolThunk (countThunk g) c = (!(g c), c + 1))
  ∧ (∀ (g : Nat → Bool) (k c : Nat),
      iterateThunk (negBoolThunk (countThunk g)) k c
        = ((List.range' c k).map (fun i => !(g i)), c + k)) := by
  refine ⟨fun t => ⟨rfl, rfl⟩, fun g c => rfl, fun g k => ?_⟩
  induction k with
  | zero => intro c; simp [iterateThunk]
  | succ n ih =>
    intro c
    have h1 : c + (n + 1) = c + 1 + n := by omega
    simp only [iterateThunk, negBoolThunk, countThunk, ih, List.range'_succ,
      List.map_cons, h1]

/-- C9: the normalisation function assert maps a bare bool b to (b, ""), a
nullary boolean function f to (f(), "") invoking f exactly once, and a
Predicate p to (p.Ok(), p.Message()), evaluating Ok first and Message
second. -/
theorem assert_normalization (σ : Type) :
    (∀ (b : Bool) (s : σ), assert (Assertion.bool b) s = ((b, ""), s))
  ∧ (∀ (t : σ → Bool × σ) (s : σ),
      assert (Assertion.funcBool t) s = (((t s).1, ""), (t s).2))
  ∧ (∀ (g : Nat → Bool) (c : Nat),
      assert (Assertion.funcBool (countThunk g)) c = ((g c, ""), c + 1))
  ∧ (∀ (p : Predicate σ) (s : σ),
      assert (Assertion.pred p) s
        = (((p.Ok s).1, (p.Message (p.Ok s).2).1), (p.Message (p.Ok s).2).2)) := by
  exact ⟨fun b s => rfl, fun t s => rfl, fun g c => rfl, fun p s => rfl⟩

/-- C1 (amended): in the part_001 variant, for every value outside the
Negatable set - a non-callable value of any kind, a function with a number of
return values other than one, or a single-return function whose return type is
not bool, func() bool, or Predicate - Not panics immediately with a diagnostic
message; the error is produced by the pure dispatch itself, before any
invocation of the argument or of a predicate thunk. -/
theorem part001_not_loud (σ α : Type) :
    (∀ k : Kind,
      Part001.Not (σ := σ) (α := α) (DynVal.nonFunc k) = Except.error (notPanicKind k))
  ∧ (∀ f : GoFunc σ α, f.numOut ≠ 1 →
      Part001.Not (DynVal.fn f) = Except.error (notPanicOuts f.numOut))
  ∧ (∀ (tname : String) (call : α → σ → Unit × σ),
      Part001.Not (DynVal.fn (⟨1, RetTy.other tname, call⟩ : GoFunc σ α))
        = Except.error (notPanicOutTy tname)) := by
  refine ⟨fun k => rfl, fun f h => ?_, fun tname call => rfl⟩
  obtain ⟨n, ty, call⟩ := f
  simp only [Part001.Not]
  rw [if_pos h]

/-- C1 witness: the loud-panic theorem evaluated at Not(42) (kind int), at a
two-return-value function, and at a function returning a single int. -/
theorem part001_not_loud_witness :
    Part001.Not (DynVal.nonFunc (σ := Unit) (α := Unit) Kind.int)
        = Except.error (notPanicKind Kind.int)
  ∧ notPanicKind Kind.int
      = "argument to Not must be an assertion or function that returns an assertion, got int"
  ∧ Part001.Not
        (DynVal.fn (⟨2, RetTy.p, fun (_ : Unit) (s : Unit) => (TruePred, s)⟩ : GoFunc Unit Unit))
        = Except.error (notPanicOuts 2)
  ∧ notPanicOuts 2
      = "argument to Not must be an assertion or function that returns an assertion, got a function which returns 2 items"
  ∧ Part001.Not
        (DynVal.fn (⟨1, RetTy.other "int", fun (_ : Unit) (s : Unit) => ((), s)⟩ : GoFunc Unit Unit))
        = Except.error (notPanicOutTy "int")
  ∧ notPanicOutTy "int"
      = "argument to Not must be an assertion or function that returns an assertion, got a function which returns int" := by
  refine ⟨(part001_not_loud Unit Unit).1 Kind.int, rfl,
    (part001_not_loud Unit Unit).2.1 _ (by decide), rfl,
    (part001_not_loud Unit Unit).2.2 "int" _, rfl⟩

/-- C1 counterexample: the src/observable.go variant of Not, applied to the
same unsupported values - the int 42 (a non-callable, kind int) and a nullary
function returning int (as in TestNotUnsupportedFunc) - silently returns the
zero value of F (0 and a nil func respectively) instead of surfacing the
contract violation. -/
theorem observableGo_not_silent_zero :
    ObservableGo.Not (DynVal.nonFunc (σ := Unit) (α := Unit) Kind.int)
        = ObservableGo.NotResult.zero
  ∧ ObservableGo.Not
        (DynVal.fn (⟨1, RetTy.other "int", fun (_ : Unit) (s : Unit) => ((), s)⟩ : GoFunc Unit Unit))
        = ObservableGo.NotResult.zero := by
  exact ⟨rfl, rfl⟩

/-- C2 (amended): in the part_001 variant, for every function of one return
value (any parameter tuple α), Not accepts it precisely when the declared
return type is bool, func() bool, or Predicate, and returns a function with
the same parameter tuple and the same declared return type that applies the
corresponding complement (boolean complement, deferred nullary-function
complement, Predicate complement) to the original function's result; any
other single return type panics. -/
theorem part001_not_dispatch (σ α : Type) :
    (∀ call : α → σ → Bool × σ,
      Part001.Not (DynVal.fn (⟨1, RetTy.b, call⟩ : GoFunc σ α))
        = Except.ok (DynVal.fn ⟨1, RetTy.b, fun a s => (!(call a s).1, (call a s).2)⟩))
  ∧ (∀ call : α → σ → (σ → Bool × σ) × σ,
      Part001.Not (DynVal.fn (⟨1, RetTy.fb, call⟩ : GoFunc σ α))
        = Except.ok (DynVal.fn ⟨1, RetTy.fb,
            fun a s => (negBoolThunk (call a s).1, (call a s).2)⟩))
  ∧ (∀ call : α → σ → Predicate σ × σ,
      Part001.Not (DynVal.fn (⟨1, RetTy.p, call⟩ : GoFunc σ α))
        = Except.ok (DynVal.fn ⟨1, RetTy.p,
            fun a s => (notPredicate (call a s).1, (call a s).2)⟩))
  ∧ (∀ (tname : String) (call : α → σ → Unit × σ),
      Part001.Not (DynVal.fn (⟨1, RetTy.other tname, call⟩ : GoFunc σ α))
        = Except.error (notPanicOutTy tname)) := by
  exact ⟨fun call => rfl, fun call => rfl, fun call => rfl, fun tname call => rfl⟩

/-- C2 counterexample: the src/observable.go variant rejects a one-argument
function returning bool - a member of the claimed accepted set - by silently
returning the zero value (a nil func) instead of the complement wrapper. -/
theorem observableGo_not_zero_on_bool_fn :
    ObservableGo.Not
        (DynVal.fn (⟨1, RetTy.b, fun (a : Bool) (s : Unit) => (a, s)⟩ : GoFunc Unit Bool))
        = ObservableGo.NotResult.zero := rfl

/-- C3: the wrapper that Not builds for a variadic Predicate-returning
function does NOT forward the variadic arguments unchanged.  The trampoline
hands the wrapper the variadic arguments already packed in one slice Value,
and the wrapper forwards with `rv.Call`, which packs each trailing Value as
one element of a fresh variadic slice: the callee receives
`rest = [slice [r1, r2, r3]]` - one element holding the nested slice - instead
of `[r1, r2, r3]` (and `[slice []]` instead of `[]` for zero variadic
arguments).  The spy records into the state exactly the rest slice the
original function's body received. -/
theorem not_variadic_forwarding_nested :
    ((NotVariadic spyVariadic).call "foo" [GoAny.int 1, GoAny.int 2, GoAny.int 3] []).2
        = [GoAny.slice [GoAny.int 1, GoAny.int 2, GoAny.int 3]]
  ∧ ((NotVariadic spyVariadic).call "foo" [GoAny.int 1, GoAny.int 2, GoAny.int 3] []).2
        ≠ [GoAny.int 1, GoAny.int 2, GoAny.int 3]
  ∧ (∀ rest : List GoAny,
      ((NotVariadic spyVariadic).call "foo" rest []).2 = [GoAny.slice rest])
  ∧ ((NotVariadic spyVariadic).call "foo" [] []).2 = [GoAny.slice []] := by
  refine ⟨rfl, ?_, fun rest => rfl, rfl⟩
  intro h
  have h2 := congrArg List.length h
  exact absurd h2 (by decide)

/-- Once a `Returns` predicate has run its guarded computation, further
accessor invocations leave the state untouched. -/
theorem returns_fix {T : Type} [DecidableEq T] [ToString T] (fval want : T)
    (accs : List Accessor) (g : T) (c : Nat) :
    runAccessors (Returns fval want) accs ⟨true, g, c⟩ = ⟨true, g, c⟩ := by
  induction accs with
  | nil => rfl
  | cons a rest ih => cases a <;> exact ih

/-- Once an `ElementsMatch` predicate has run its guarded comparison, further
accessor invocations leave the state untouched. -/
theorem elements_fix {T : Type} [DecidableEq T] [ToString T] (got want : List T)
    (accs : List Accessor) (m : Bool) (c : Nat) :
    runAccessors (ElementsMatch got want) accs ⟨true, m, c⟩ = ⟨true, m, c⟩ := by
  induction accs with
  | nil => rfl
  | cons a rest ih => cases a <;> exact ih

/-- C5: for the once-guarded builders Returns and ElementsMatch, any nonempty
sequence of Ok()/Message() invocations - in either order, each repeated any
number of times - runs the captured expensive computation exactly once (the
run counter ends at 1) and caches its outcome, and on a cached state both
accessors read the cached value without re-running the computation. -/
theorem memoize_once_total (T : Type) [DecidableEq T] [ToString T]
    (fval want g₀ : T) (got want₂ : List T) (m₀ : Bool) (a : Accessor)
    (accs : List Accessor) (c : Nat) :
    runAccessors (Returns fval want) (a :: accs) ⟨false, g₀, 0⟩ = ⟨true, fval, 1⟩
  ∧ runAccessors (ElementsMatch got want₂) (a :: accs) ⟨false, m₀, 0⟩
      = ⟨true, elemCountEq got want₂, 1⟩
  ∧ (Returns fval want).Ok ⟨true, g₀, c⟩ = (decide (g₀ = want), ⟨true, g₀, c⟩)
  ∧ (Returns fval want).Message ⟨true, g₀, c⟩
      = ("expected " ++ toString want ++ ", got " ++ toString g₀, ⟨true, g₀, c⟩)
  ∧ (ElementsMatch got want₂).Ok ⟨true, m₀, c⟩ = (m₀, ⟨true, m₀, c⟩)
  ∧ (ElementsMatch got want₂).Message ⟨true, m₀, c⟩
      = ("expected " ++ toString got ++ " and " ++ toString want₂
          ++ " to contain the same elements", ⟨true, m₀, c⟩) := by
  refine ⟨?_, ?_, rfl, rfl, rfl, rfl⟩
  · cases a <;> exact returns_fix fval want accs fval 1
  · cases a <;> exact elements_fix got want₂ accs (elemCountEq got want₂) 1

/-- For stable children the combinator loop returns the messages of exactly
the failing children, in order, and restores the threaded state. -/
theorem collect_stable {σ : Type} (ps : List (Predicate σ)) (s : σ)
    (h : ∀ p ∈ ps, stable p) :
    collectFailures ps s
      = ((ps.filter (fun p => !(p.ok s).1)).map (fun p => (p.msg s).1), s) := by
  induction ps with
  | nil => rfl
  | cons p rest ih =>
    have hok2 : (p.ok s).2 = s := (h p (List.mem_cons_self p rest) s).1
    have hmsg2 : (p.msg s).2 = s := (h p (List.mem_cons_self p rest) s).2
    have ih2 := ih (fun q hq => h q (List.mem_cons_of_mem p hq))
    cases hb : (p.ok s).1 <;>
      simp [collectFailures, hok2, hmsg2, hb, ih2, List.filter_cons]

/-- Fewer collected failures than children means some child succeeded. -/
theorem length_filter_lt_iff {σ : Type} (f : Predicate σ → Bool)
    (ps : List (Predicate σ)) :
    (ps.filter (fun p => !f p)).length < ps.length ↔ ∃ p ∈ ps, f p = true := by
  induction ps with
  | nil => simp
  | cons p rest ih =>
    cases hf : f p
    · simp [List.filter_cons, hf, Nat.succ_lt_succ_iff, ih]
    · simp [List.filter_cons, hf, Nat.lt_succ_iff, List.length_filter_le]

/-- No collected failures means every child succeeded. -/
theorem length_filter_zero_iff {σ : Type} (f : Predicate σ → Bool)
    (ps : List (Predicate σ)) :
    (ps.filter (fun p => !f p)).length = 0 ↔ ∀ p ∈ ps, f p = true := by
  induction ps with
  | nil => simp
  | cons p rest ih =>
    cases hf : f p
    · simp [List.filter_cons, hf]
    · simp [List.filter_cons, hf, ih]

/-- The combinator loop evaluates every child exactly once, succeeding or not:
with counting children the counter advances by the number of children. -/
theorem collect_counting (bl : List Bool) (c : Nat) :
    (collectFailures (bl.map countingPred) c).2 = c + bl.length := by
  induction bl generalizing c with
  | nil => simp [collectFailures]
  | cons b rest ih =>
    cases b <;> simp [collectFailures, countingPred, ih] <;> omega

/-- C8: on a fresh state, Any(ps).Ok() is true iff at least one child's Ok()
is true and All(ps).Ok() is true iff every child's Ok() is true; both messages
aggregate the Message() of exactly the failing children; and the loop
evaluates every child (no short-circuit), witnessed by counting children. -/
theorem any_all_semantics (σ : Type) (ps : List (Predicate σ)) (s : σ)
    (h : ∀ p ∈ ps, stable p) :
    ((((Any ps).Ok ⟨s, false, []⟩).1 = true) ↔ ∃ p ∈ ps, (p.Ok s).1 = true)
  ∧ ((((All ps).Ok ⟨s, false, []⟩).1 = true) ↔ ∀ p ∈ ps, (p.Ok s).1 = true)
  ∧ ((Any ps).Message ⟨s, false, []⟩).1
      = "expected any to be true, all failed: "
          ++ govStrings ((ps.filter (fun p => !(p.Ok s).1)).map (fun p => (p.Message s).1))
  ∧ ((All ps).Message ⟨s, false, []⟩).1
      = "expected all to be true, failures: "
          ++ govStrings ((ps.filter (fun p => !(p.Ok s).1)).map (fun p => (p.Message s).1))
  ∧ (∀ (bl : List Bool) (c : Nat),
      (collectFailures (bl.map countingPred) c).2 = c + bl.length) := by
  have hc := collect_stable ps s h
  refine ⟨?_, ?_, ?_, ?_, collect_counting⟩
  · show decide ((collectFailures ps s).1.length < ps.length) = true ↔ _
    simp only [hc, List.length_map, decide_eq_true_eq]
    exact length_filter_lt_iff (fun p => (p.ok s).1) ps
  · show decide ((collectFailures ps s).1.length = 0) = true ↔ _
    simp only [hc, List.length_map, decide_eq_true_eq]
    exact length_filter_zero_iff (fun p => (p.ok s).1) ps
  · show "expected any to be true, all failed: " ++ govStrings (collectFailures ps s).1 = _
    simp only [hc]
    rfl
  · show "expected all to be true, failures: " ++ govStrings (collectFailures ps s).1 = _
    simp only [hc]
    rfl

/-- C8 witness: Any/All evaluated at the concrete children
[False(), False(), True()], with the stability hypothesis discharged. -/
theorem any_all_semantics_witness :
    ((((Any [FalsePred, FalsePred, TruePred]).Ok ⟨(), false, []⟩).1 = true)
        ↔ ∃ p ∈ [FalsePred, FalsePred, (TruePred : Predicate Unit)], (p.Ok ()).1 = true)
  ∧ ((Any [FalsePred, FalsePred, (TruePred : Predicate Unit)]).Ok ⟨(), false, []⟩).1 = true
  ∧ ((All [FalsePred, FalsePred, (TruePred : Predicate Unit)]).Ok ⟨(), false, []⟩).1 = false
  ∧ ((Any [FalsePred, FalsePred, (TruePred : Predicate Unit)]).Message ⟨(), false, []⟩).1
      = "expected any to be true, all failed: [false false]" := by
  have hstab : ∀ p ∈ [FalsePred, FalsePred, (TruePred : Predicate Unit)], stable p := by
    intro p hp
    simp only [List.mem_cons, List.not_mem_nil, or_false] at hp
    rcases hp with rfl | rfl | rfl <;> exact fun t => ⟨rfl, rfl⟩
  exact ⟨(any_all_semantics Unit [FalsePred, FalsePred, TruePred] () hstab).1,
    rfl, rfl, rfl⟩

/-- C10: Nil(v).Ok() is true iff v is the nil interface value, or v is a
non-nil interface whose dynamic value has reflect kind in the numeric range
Chan through Slice and IsNil() holds; every other value - the int 0, the
empty string, a struct, a nil unsafe.Pointer - yields false, while a typed
nil pointer stored in the interface counts as nil. -/
theorem nil_semantics (σ : Type) (v : AnyVal) (s : σ) :
    (Nil (σ := σ) v).Ok s = (isNil v, s)
  ∧ (isNil v = true ↔
      v = AnyVal.nilInterface
      ∨ ∃ k b rep, v = AnyVal.val k b rep
          ∧ Kind.chan.code ≤ k.code ∧ k.code ≤ Kind.slice.code ∧ b = true)
  ∧ isNil (AnyVal.val Kind.int false "0") = false
  ∧ isNil (AnyVal.val Kind.string false "\"\"") = false
  ∧ isNil (AnyVal.val Kind.struct false "main.T (zero value)") = false
  ∧ isNil (AnyVal.val Kind.uptr true "unsafe.Pointer(nil)") = false
  ∧ isNil (AnyVal.val Kind.pointer true "(*int)(nil)") = true
  ∧ isNil AnyVal.nilInterface = true := by
  refine ⟨rfl, ?_, rfl, rfl, rfl, rfl, rfl, rfl⟩
  cases v with
  | nilInterface => simp [isNil]
  | val k b rep =>
    constructor
    · intro hv
      simp only [isNil, Bool.and_eq_true, decide_eq_true_eq] at hv
      exact Or.inr ⟨k, b, rep, rfl, hv.1.1, hv.1.2, hv.2⟩
    · intro hv
      rcases hv with h | ⟨k₂, b₂, r₂, heq, h1, h2, hb⟩
      · exact absurd h (by simp)
      · cases heq
        subst hb
        simp only [isNil, Bool.and_eq_true, decide_eq_true_eq]
        refine ⟨⟨h1, h2⟩, ?_⟩
        trivial

end Observable
